import Mathlib

/-!
Verification of the documentation-build configuration file `docs/conf.py`.

The file consists solely of top-level name bindings: seven string fields and
one mapping of theme toggles whose every candidate entry is commented out,
leaving the mapping empty.  We embed the configuration as a structure, and
the act of loading the file as a function into `Except`, since loading a
configuration file is in general fallible.
-/

/-- The recognized configuration fields of `docs/conf.py`: seven strings and
the theme-options mapping, embedded as an association list from option name
to boolean toggle. -/
structure SphinxConfig where
  source_suffix : String
  master_doc : String
  project : String
  copyright : String
  version : String
  release : String
  html_theme : String
  html_theme_options : List (String × Bool)
deriving Repr, DecidableEq

/-- The configuration value declared in `docs/conf.py`.  Each field is the
literal written in the file; the theme-options dictionary is empty because
every entry in its literal (`slidetoc`, `enablesidebar`, `rightsidebar`)
is commented out. -/
def confValue : SphinxConfig :=
  { source_suffix := ".rst"
    master_doc := "index"
    project := "XTools"
    copyright := "2008–2020, XTools contributors"
    version := "3.11"
    release := "3.11.0"
    html_theme := "sphinx_rtd_theme"
    html_theme_options := [] }

/-- Loading `docs/conf.py`: executing the file binds the literals above and
cannot fail, since the file is a sequence of constant assignments with no
control flow.  The `Except` result models the fallibility of a configuration
load in general. -/
def loadConf : Except String SphinxConfig :=
  Except.ok confValue

/-- A toggle mapping is all-disabled when every key present maps to `false`. -/
def allDisabled (opts : List (String × Bool)) : Bool :=
  opts.all fun kv => kv.2 == false

/-- Looking up a key in the theme-options mapping, first match wins. -/
def lookupOption (opts : List (String × Bool)) (k : String) : Option Bool :=
  opts.lookup k

/-- Any successful load yields exactly the declared configuration value. -/
theorem loadConf_eq (c : SphinxConfig) (h : loadConf = Except.ok c) :
    c = confValue := by
  cases h
  rfl

/-- C1: after loading the configuration, the project name field equals the
literal string "XTools"; this holds for every load. -/
theorem loaded_project_eq (c : SphinxConfig) (h : loadConf = Except.ok c) :
    c.project = "XTools" := by
  cases h
  rfl

/-- Witness for C1: the load succeeds with `confValue`, whose project field
is the literal "XTools". -/
theorem loaded_project_eq_witness : confValue.project = "XTools" :=
  loaded_project_eq confValue rfl

/-- C2: after loading the configuration, the short version string equals the
literal "3.11" and the full release string equals the literal "3.11.0"; this
holds for every load. -/
theorem loaded_version_release_eq (c : SphinxConfig)
    (h : loadConf = Except.ok c) :
    c.version = "3.11" ∧ c.release = "3.11.0" := by
  cases h
  exact ⟨rfl, rfl⟩

/-- Witness for C2: evaluated at the concrete loaded value. -/
theorem loaded_version_release_eq_witness :
    confValue.version = "3.11" ∧ confValue.release = "3.11.0" :=
  loaded_version_release_eq confValue rfl

/-- C3: every key present in the loaded theme-options mapping maps to
`false`; the property holds (vacuously) because the mapping is empty. -/
theorem loaded_theme_options_all_disabled (c : SphinxConfig)
    (h : loadConf = Except.ok c) :
    allDisabled c.html_theme_options = true := by
  cases h
  rfl

/-- Witness for C3: evaluated at the concrete loaded value. -/
theorem loaded_theme_options_all_disabled_witness :
    allDisabled confValue.html_theme_options = true :=
  loaded_theme_options_all_disabled confValue rfl

/-- C4: loading is deterministic and idempotent: any two successful loads
agree on every recognized field (source file suffix, master document,
project, copyright, version, release, theme name, theme options). -/
theorem loadConf_deterministic (c₁ c₂ : SphinxConfig)
    (h₁ : loadConf = Except.ok c₁) (h₂ : loadConf = Except.ok c₂) :
    c₁.source_suffix = c₂.source_suffix ∧
    c₁.master_doc = c₂.master_doc ∧
    c₁.project = c₂.project ∧
    c₁.copyright = c₂.copyright ∧
    c₁.version = c₂.version ∧
    c₁.release = c₂.release ∧
    c₁.html_theme = c₂.html_theme ∧
    c₁.html_theme_options = c₂.html_theme_options := by
  cases h₁
  cases h₂
  exact ⟨rfl, rfl, rfl, rfl, rfl, rfl, rfl, rfl⟩

/-- Witness for C4: two concrete loads of the file agree on every field. -/
theorem loadConf_deterministic_witness :
    confValue.source_suffix = confValue.source_suffix ∧
    confValue.master_doc = confValue.master_doc ∧
    confValue.project = confValue.project ∧
    confValue.copyright = confValue.copyright ∧
    confValue.version = confValue.version ∧
    confValue.release = confValue.release ∧
    confValue.html_theme = confValue.html_theme ∧
    confValue.html_theme_options = confValue.html_theme_options :=
  loadConf_deterministic confValue confValue rfl rfl

/-- C5: loading the configuration file always succeeds: the load never takes
the error branch of `Except`. -/
theorem loadConf_never_errors : ∃ c, loadConf = Except.ok c :=
  ⟨confValue, rfl⟩

/-- C6: after loading the configuration, the source file suffix field equals
the literal string ".rst". -/
theorem loaded_source_suffix_eq (c : SphinxConfig)
    (h : loadConf = Except.ok c) :
    c.source_suffix = ".rst" := by
  cases h
  rfl

/-- Witness for C6: evaluated at the concrete loaded value. -/
theorem loaded_source_suffix_eq_witness : confValue.source_suffix = ".rst" :=
  loaded_source_suffix_eq confValue rfl

/-- C7: after loading the configuration, the master (root) document
identifier equals the literal string "index". -/
theorem loaded_master_doc_eq (c : SphinxConfig)
    (h : loadConf = Except.ok c) :
    c.master_doc = "index" := by
  cases h
  rfl

/-- Witness for C7: evaluated at the concrete loaded value. -/
theorem loaded_master_doc_eq_witness : confValue.master_doc = "index" :=
  loaded_master_doc_eq confValue rfl

/-- C8: after loading the configuration, the HTML theme name field equals the
literal string "sphinx_rtd_theme". -/
theorem loaded_html_theme_eq (c : SphinxConfig)
    (h : loadConf = Except.ok c) :
    c.html_theme = "sphinx_rtd_theme" := by
  cases h
  rfl

/-- Witness for C8: evaluated at the concrete loaded value. -/
theorem loaded_html_theme_eq_witness :
    confValue.html_theme = "sphinx_rtd_theme" :=
  loaded_html_theme_eq confValue rfl

/-- C9: after loading the configuration, the copyright notice field equals
the literal string "2008–2020, XTools contributors", with an en dash
(U+2013) between the years. -/
theorem loaded_copyright_eq (c : SphinxConfig)
    (h : loadConf = Except.ok c) :
    c.copyright = "2008–2020, XTools contributors" := by
  cases h
  rfl

/-- Witness for C9: evaluated at the concrete loaded value. -/
theorem loaded_copyright_eq_witness :
    confValue.copyright = "2008–2020, XTools contributors" :=
  loaded_copyright_eq confValue rfl

/-- C10: the loaded theme-options mapping is empty, so no key looks up to a
value: every candidate toggle in the file is commented out. -/
theorem loaded_theme_options_empty (c : SphinxConfig)
    (h : loadConf = Except.ok c) :
    c.html_theme_options = [] ∧
    ∀ k, lookupOption c.html_theme_options k = none := by
  cases h
  exact ⟨rfl, fun _ => rfl⟩

/-- Witness for C10: evaluated at the concrete loaded value, probing the
lookup at a concrete key that appears commented out in the file. -/
theorem loaded_theme_options_empty_witness :
    confValue.html_theme_options = [] ∧
    lookupOption confValue.html_theme_options "slidetoc" = none :=
  ⟨(loaded_theme_options_empty confValue rfl).1,
   (loaded_theme_options_empty confValue rfl).2 "slidetoc"⟩
